import Mathlib

/-!
Shallow embedding of the response-buffering and cross-modal coordination
state machine of the deckard realtime gateway (server/app/main.py) and of
the D-ID talks service helpers (server/app/services/did_talks.py).

Bytes are modelled as `Nat` values, byte strings as `List Nat`.  The
external video-generation HTTP call is modelled by a `DidOutcome`
parameter (a returned result or a raised exception message), and the
environment-based persona source-URL resolution by a
`resolveSrc : String → Option String` parameter.  Async functions that
write to the client websocket are modelled as pure state transformers
returning the ordered list of outbound messages.  Python's `str.strip`
and `str.lower` are modelled by `pyStrip` and `pyLower` on the character
list of the string.
-/

namespace Deckard

/-- Remove leading and trailing whitespace characters (Python `str.strip()`). -/
def pyStripList (l : List Char) : List Char :=
  ((l.dropWhile Char.isWhitespace).reverse.dropWhile Char.isWhitespace).reverse

/-- String form of `pyStripList`. -/
def pyStrip (s : String) : String := String.mk (pyStripList s.toList)

/-- Lowercase every character (Python `str.lower()`; ASCII). -/
def pyLower (s : String) : String := String.mk (s.toList.map Char.toLower)

/-- States for tracking the response lifecycle (main.py `ResponseState`). -/
inductive ResponseState where
  | IDLE
  | RESPONSE_STARTED
  | BUFFERING
  | GENERATING_VIDEO
  | READY
  | PLAYING
deriving DecidableEq, Repr

/-- Structured text segment captured during a buffered response
(main.py `BufferedTextPart`). -/
structure BufferedTextPart where
  role : String
  text : String
deriving DecidableEq, Repr

/-- Buffer for collecting response audio and text (main.py `ResponseBuffer`).
The `started_at` wall-clock timestamp and the never-written `complete_audio`
field are omitted: no modelled operation reads them. -/
structure ResponseBuffer where
  response_id : String
  audio_chunks : List (List Nat) := []
  text_parts : List BufferedTextPart := []
  video_generation_started : Bool := false
  video_url : Option String := none
  video_talk_id : Option String := none
  complete_text : Option String := none
deriving DecidableEq, Repr

/-- Role normalization used by `ResponseBuffer.add_text_part` and
`_handle_buffered_text`: Python `(role or "").strip().lower() or "assistant"`. -/
def normalize_role (role : String) : String :=
  let s := pyLower (pyStrip role)
  if s = "" then "assistant" else s

/-- Total bytes of audio collected (main.py `ResponseBuffer.total_audio_bytes`). -/
def ResponseBuffer.total_audio_bytes (b : ResponseBuffer) : Nat :=
  (b.audio_chunks.map List.length).sum

/-- Store a text fragment and its originating role
(main.py `ResponseBuffer.add_text_part`). -/
def ResponseBuffer.add_text_part (b : ResponseBuffer) (text : String)
    (role : String := "assistant") : ResponseBuffer :=
  let cleaned_text := pyStrip text
  if cleaned_text = "" then b
  else { b with text_parts := b.text_parts ++ [{ role := normalize_role role, text := cleaned_text }] }

/-- Get the complete assistant-authored text (main.py `ResponseBuffer.get_full_text`):
Python `" ".join(part.text for part in self.text_parts if part.role == "assistant").strip()`. -/
def ResponseBuffer.get_full_text (b : ResponseBuffer) : String :=
  pyStrip (String.intercalate " "
    ((b.text_parts.filter (fun p => p.role == "assistant")).map (fun p => p.text)))

/-- Get the complete audio from all chunks (main.py `ResponseBuffer.get_full_audio`). -/
def ResponseBuffer.get_full_audio (b : ResponseBuffer) : List Nat :=
  b.audio_chunks.flatten

/-- Outbound client-transport messages: the `type`-discriminated JSON records
the manager writes to the websocket.  `talk_video.coordinated` is an
`Option Bool` because the legacy path omits the key entirely. -/
inductive Msg where
  | audio (payload : String)
  | audio_end
  | talk_video (persona : String) (talk_id : Option String) (status : String)
      (url : Option String) (coordinated : Option Bool)
  | talk_error (persona : String) (error : String)
  | client_info (info : String) (detail : Option String)
  | error (message : String)
deriving DecidableEq, Repr

/-- Whether a message is a `talk_video` record. -/
def Msg.isTalkVideo : Msg → Bool
  | .talk_video _ _ _ _ _ => true
  | _ => false

/-- Whether a message is a `talk_error` record. -/
def Msg.isTalkError : Msg → Bool
  | .talk_error _ _ => true
  | _ => false

/-- Status field of a `talk_video` message, if the message is one. -/
def Msg.talkVideoStatus : Msg → Option String
  | .talk_video _ _ s _ _ => some s
  | _ => none

/-- Standard base64 alphabet, as used by Python `base64.b64encode`. -/
def b64Alphabet : List Char :=
  "ABCDEFGHIJKLMNOPQRSTUVWXYZabcdefghijklmnopqrstuvwxyz0123456789+/".toList

/-- Character for a 6-bit group. -/
def b64Char (n : Nat) : Char := b64Alphabet.getD n 'A'

/-- Base64-encode a byte list, three bytes at a time with `=` padding. -/
def b64Groups : List Nat → List Char
  | [] => []
  | [b0] => [b64Char (b0 / 4), b64Char (b0 % 4 * 16), '=', '=']
  | [b0, b1] => [b64Char (b0 / 4), b64Char (b0 % 4 * 16 + b1 / 16), b64Char (b1 % 16 * 4), '=']
  | b0 :: b1 :: b2 :: rest =>
      b64Char (b0 / 4) :: b64Char (b0 % 4 * 16 + b1 / 16) ::
      b64Char (b1 % 16 * 4 + b2 / 64) :: b64Char (b2 % 64) :: b64Groups rest

/-- Base64-encode a byte list into a string (Python `base64.b64encode(...).decode("utf-8")`). -/
def b64encode (bytes : List Nat) : String := String.mk (b64Groups bytes)

/-- Result of a D-ID talk generation call (did_talks.py `DidTalkResult`). -/
structure DidTalkResult where
  talk_id : String
  status : String
  result_url : Option String
  error : Option String := none
deriving DecidableEq, Repr

/-- Outcome of the external video-generation call as observed by the caller:
either a returned result or an exception carrying a message. -/
inductive DidOutcome where
  | ok (result : DidTalkResult)
  | exn (message : String)
deriving DecidableEq, Repr

/-- Python truthiness of an optional string: `None` and `""` are falsy. -/
def truthyOpt : Option String → Bool
  | none => false
  | some s => s != ""

/-- Terminal-success statuses recognized case-insensitively. -/
def successStatuses : List String := ["done", "complete", "succeeded"]

/-- Terminal-failure statuses recognized case-insensitively. -/
def failureStatuses : List String := ["error", "failed"]

/-- Case-insensitive terminal-success test (`status.lower() in {...}`). -/
def isSuccessStatus (s : String) : Bool := successStatuses.contains (pyLower s)

/-- Case-insensitive terminal-failure test (`status.lower() in {...}`). -/
def isFailureStatus (s : String) : Bool := failureStatuses.contains (pyLower s)

/-- Polling loop body of did_talks.py `DIDTalksService.wait_for_result`.
Real time is abstracted: the list holds the successive `get_talk` results
that fit before the `max_wait` deadline (the fixed `poll_interval` sleep and
the deadline bound the list to finitely many polls); the `Option` accumulator
is the `last` variable of the loop. -/
def waitPoll (talk_id : String) : Option DidTalkResult → List DidTalkResult → DidTalkResult
  | none, [] =>
      { talk_id := talk_id, status := "timeout", result_url := none,
        error := some "Timeout waiting for result" }
  | some last, [] =>
      { talk_id := talk_id, status := "timeout", result_url := last.result_url,
        error := some "Timeout" }
  | _, r :: rest =>
      if isSuccessStatus r.status then r
      else if isFailureStatus r.status then r
      else waitPoll talk_id (some r) rest

/-- did_talks.py `DIDTalksService.wait_for_result`, over the abstract poll list. -/
def wait_for_result (talk_id : String) (polls : List DidTalkResult) : DidTalkResult :=
  waitPoll talk_id none polls

/-- Per-session mutable state owned by `RealtimeWebSocketManager` (main.py):
the slices of the per-session dictionaries relevant to one session.
`websocket` records whether `self.websockets` still holds an entry for the
session; `responseAudioBuffer` is the session's `response_audio_buffers`
bytearray; `responseCounter` defaults to 0 when the dictionary has no entry,
matching `response_counters.get(session_id, 0)`. -/
structure SessionState where
  sessionId : String
  websocket : Bool
  persona : Option String
  responseBuffer : Option ResponseBuffer
  responseState : ResponseState
  responseCounter : Nat
  responseAudioBuffer : List Nat
deriving DecidableEq, Repr

/-- Persona lookup with default (`self.persona.get(session_id, "joi")`). -/
def currentPersona (st : SessionState) : String := st.persona.getD "joi"

/-- main.py `_get_next_response_id`: increments the counter and yields
`f"{session_id}_response_{counter}"`. -/
def get_next_response_id (st : SessionState) : SessionState × String :=
  ({ st with responseCounter := st.responseCounter + 1 },
   st.sessionId ++ "_response_" ++ toString st.responseCounter)

/-- main.py `_start_response_buffer`: unconditionally installs a fresh buffer
with the next response id and sets the state to `RESPONSE_STARTED`. -/
def start_response_buffer (st : SessionState) : SessionState × ResponseBuffer :=
  let idr := get_next_response_id st
  let buffer : ResponseBuffer := { response_id := idr.2 }
  ({ idr.1 with responseBuffer := some buffer,
                responseState := ResponseState.RESPONSE_STARTED }, buffer)

/-- main.py `_clear_response_buffer`: removes the buffer and resets the state
to `IDLE`. -/
def clear_response_buffer (st : SessionState) : SessionState :=
  { st with responseBuffer := none, responseState := ResponseState.IDLE }

/-- main.py `_handle_buffered_text`: append assistant text to the current
buffer and, the first time only, mark video generation started and spawn the
background generation task.  The returned `Bool` records whether an
`asyncio.create_task(self._generate_buffered_video(...))` was issued. -/
def handle_buffered_text (st : SessionState) (text : String)
    (role : String := "assistant") : SessionState × Bool :=
  match st.responseBuffer with
  | none => (st, false)
  | some buffer =>
    let normalized_role := normalize_role role
    if normalized_role != "assistant" then (st, false)
    else
      let b1 := buffer.add_text_part text normalized_role
      let b2 := { b1 with complete_text := some b1.get_full_text }
      if b2.video_generation_started then
        ({ st with responseBuffer := some b2 }, false)
      else
        ({ st with
             responseBuffer := some { b2 with video_generation_started := true },
             responseState := ResponseState.GENERATING_VIDEO }, true)

/-- Sequencing of several buffered-text additions for one session; the `Nat`
counts the background video-generation tasks created along the way. -/
def runTexts : SessionState → List (String × String) → SessionState × Nat
  | st, [] => (st, 0)
  | st, p :: rest =>
    let step := handle_buffered_text st p.1 p.2
    let r := runTexts step.1 rest
    (r.1, (if step.2 then 1 else 0) + r.2)

/-- main.py `_send_coordinated_response`: on the buffered success path, replay
every buffered audio chunk as an individual base64 `audio` message, then a
coordinated `talk_video` record with the literal status `"done"`, then
`audio_end`; finally clear the buffer (the transient `READY` assignment is
overwritten by the `IDLE` set inside `_clear_response_buffer`). -/
def send_coordinated_response (st : SessionState) (buffer : ResponseBuffer) :
    SessionState × List Msg :=
  if st.websocket then
    let persona := currentPersona st
    let msgs := buffer.audio_chunks.map (fun chunk => Msg.audio (b64encode chunk))
      ++ [Msg.talk_video persona buffer.video_talk_id "done" buffer.video_url (some true),
          Msg.audio_end]
    (clear_response_buffer st, msgs)
  else (st, [])

/-- main.py `_send_buffered_response_error`: fall back to audio-only playback
(buffered chunks then `audio_end`, when a buffer is present), send one
`talk_error`, and clear the buffer. -/
def send_buffered_response_error (st : SessionState) (err : String) :
    SessionState × List Msg :=
  if st.websocket then
    let fallback := match st.responseBuffer with
      | some buffer =>
          buffer.audio_chunks.map (fun chunk => Msg.audio (b64encode chunk)) ++ [Msg.audio_end]
      | none => []
    (clear_response_buffer st, fallback ++ [Msg.talk_error (currentPersona st) err])
  else (st, [])

/-- main.py `_generate_buffered_video`: resolve the persona source URL, call
the external service (its observed outcome is the `DidOutcome` parameter,
covering returned results and raised exceptions), store the video result in
the buffer, and dispatch to the coordinated-success or error path. -/
def generate_buffered_video (resolveSrc : String → Option String) (st : SessionState)
    (buffer : ResponseBuffer) (outcome : DidOutcome) : SessionState × List Msg :=
  let persona := currentPersona st
  if truthyOpt (resolveSrc persona) then
    match outcome with
    | DidOutcome.exn e => send_buffered_response_error st e
    | DidOutcome.ok result =>
      let b1 := { buffer with video_url := result.result_url,
                              video_talk_id := some result.talk_id }
      if isSuccessStatus result.status && truthyOpt result.result_url then
        send_coordinated_response st b1
      else
        send_buffered_response_error st ("Video generation failed: " ++ result.status)
  else
    send_buffered_response_error st "No source URL configured"

/-- Outcomes of the video-generation call that take the error path in
`_generate_buffered_video`: a raised exception, or a returned result whose
status is not terminal-success or whose result URL is absent or empty
(this includes the `"timeout"` status produced by `wait_for_result`). -/
def videoFailureOutcome : DidOutcome → Bool
  | DidOutcome.exn _ => true
  | DidOutcome.ok r => !(isSuccessStatus r.status && truthyOpt r.result_url)

/-- The `audio_end` branch of main.py `_process_events`: when the persona has
no configured text source (`_should_use_audio_for_did`), take the accumulated
PCM, reset the accumulator, and create the audio-driven talk task only when
the PCM is non-empty.  The returned `Bool` records whether a task was created. -/
def process_audio_end (resolveSrc : String → Option String) (st : SessionState) :
    SessionState × Bool :=
  let persona := currentPersona st
  if truthyOpt (resolveSrc persona) then (st, false)
  else
    let pcm := st.responseAudioBuffer
    ({ st with responseAudioBuffer := [] }, !pcm.isEmpty)

/-- main.py `_trigger_video_from_text`: returns whether a
`_create_talk_from_text_and_notify` background task is created. -/
def trigger_video_from_text (resolveSrc : String → Option String) (st : SessionState)
    (text : String) : Bool :=
  if pyStrip text = "" then false
  else truthyOpt (resolveSrc (currentPersona st))

/-- main.py `_create_talk_from_text_and_notify` (legacy text path): the ordered
messages written to the websocket.  The exception case models a raise from the
D-ID call, which happens after the `did_talk_start` notification. -/
def create_talk_from_text_and_notify (resolveSrc : String → Option String)
    (st : SessionState) (text : String) (outcome : DidOutcome) : List Msg :=
  if st.websocket then
    let persona := currentPersona st
    if truthyOpt (resolveSrc persona) then
      match outcome with
      | DidOutcome.exn e =>
          [Msg.client_info "did_talk_start" none, Msg.talk_error persona e]
      | DidOutcome.ok result =>
          [Msg.client_info "did_talk_start" none,
           Msg.client_info "did_talk_status" (some result.status),
           Msg.talk_video persona (some result.talk_id) result.status result.result_url none]
    else []
  else
    let _ := text
    []

/-- The closed persona set accepted by the `set_persona` websocket handler. -/
def personaChoices : List String := ["joi", "officer_k", "officer_j"]

/-- The `set_persona` branch of main.py `websocket_endpoint`:
`persona = str(message.get("persona") or "joi").lower()`, then either an
`error` reply (unknown persona, state untouched) or a persona update plus a
`client_info` confirmation. -/
def handle_set_persona (st : SessionState) (value : Option String) :
    SessionState × List Msg :=
  let raw := match value with
    | none => "joi"
    | some s => if s = "" then "joi" else s
  let persona := pyLower raw
  if personaChoices.contains persona then
    ({ st with persona := some persona },
     [Msg.client_info "persona_set" (some persona)])
  else
    (st, [Msg.error ("Unknown persona: " ++ persona)])

/-- Little-endian 16-bit field of Python `struct.pack` (values are reduced
mod 2^16 per byte; `struct.pack` itself raises beyond the range). -/
def pack_u16le (n : Nat) : List Nat := [n % 256, n / 256 % 256]

/-- Little-endian 32-bit field of Python `struct.pack("<I", n)`. -/
def pack_u32le (n : Nat) : List Nat :=
  [n % 256, n / 256 % 256, n / 65536 % 256, n / 16777216 % 256]

/-- Decode a 4-byte little-endian field. -/
def decode_u32le : List Nat → Nat
  | [b0, b1, b2, b3] => b0 + 256 * b1 + 65536 * b2 + 16777216 * b3
  | _ => 0

/-- ASCII bytes of `"RIFF"`. -/
def riffTag : List Nat := [82, 73, 70, 70]

/-- ASCII bytes of `"WAVE"`. -/
def waveTag : List Nat := [87, 65, 86, 69]

/-- ASCII bytes of `"fmt "`. -/
def fmtTag : List Nat := [102, 109, 116, 32]

/-- ASCII bytes of `"data"`. -/
def dataTag : List Nat := [100, 97, 116, 97]

/-- Everything of the WAV container of did_talks.py `_pcm16le_to_wav` before
the 4-byte data-size field: RIFF header, fmt chunk, and the `"data"` tag
(40 bytes). -/
def wavPre (data_size sample_rate channels : Nat) : List Nat :=
  let byte_rate := sample_rate * channels * 2
  let block_align := channels * 2
  let fmt_chunk_size := 16
  let riff_chunk_size := 4 + (8 + fmt_chunk_size) + (8 + data_size)
  riffTag ++ pack_u32le riff_chunk_size ++ waveTag
    ++ fmtTag ++ pack_u32le fmt_chunk_size ++ pack_u16le 1 ++ pack_u16le channels
    ++ pack_u32le sample_rate ++ pack_u32le byte_rate ++ pack_u16le block_align
    ++ pack_u16le 16
    ++ dataTag

/-- did_talks.py `_pcm16le_to_wav`: the full WAV byte string, header then the
raw PCM payload. -/
def pcm16le_to_wav (pcm : List Nat) (sample_rate : Nat := 24000)
    (channels : Nat := 1) : List Nat :=
  wavPre pcm.length sample_rate channels ++ pack_u32le pcm.length ++ pcm

/-- The 4-byte data-chunk length field of a produced WAV byte string
(bytes 40..43). -/
def dataSizeField (wav : List Nat) : List Nat := (wav.drop 40).take 4

/-- Sequencing of `add_text_part` calls on a buffer, in input order. -/
def applyAdds (b : ResponseBuffer) : List (String × String) → ResponseBuffer
  | [] => b
  | p :: rest => applyAdds (b.add_text_part p.1 p.2) rest

/-- The stored fragment that `add_text_part text role` appends, when it
appends one. -/
def mkFragment (p : String × String) : Option BufferedTextPart :=
  if pyStrip p.1 = "" then none
  else some { role := normalize_role p.2, text := pyStrip p.1 }

/-- The contribution of an `(text, role)` addition to `get_full_text`:
its stripped text when it is non-empty and its normalized role is
`"assistant"`. -/
def selectFragment (p : String × String) : Option String :=
  if pyStrip p.1 = "" then none
  else if normalize_role p.2 = "assistant" then some (pyStrip p.1) else none

/-- The full text computed the way claim C4 literally words it: the raw texts
of exactly the fragments whose role string equals `"assistant"`, in input
order, space-joined, with surrounding whitespace trimmed. -/
def claimedFullText (l : List (String × String)) : String :=
  pyStrip (String.intercalate " " ((l.filter (fun p => p.2 == "assistant")).map (fun p => p.1)))

/-- A fresh buffer as `ResponseBuffer(response_id=...)` constructs one. -/
def emptyBuffer : ResponseBuffer := { response_id := "test_response_0" }

/-- A session that has never spawned video generation yet: used as a concrete
witness input. -/
def demoBuffer : ResponseBuffer :=
  { response_id := "s1_response_0", audio_chunks := [[1], [2, 3]],
    video_generation_started := true }

/-- Concrete session state with a live websocket and `demoBuffer` in flight. -/
def stReady : SessionState :=
  { sessionId := "s1", websocket := true, persona := some "joi",
    responseBuffer := some demoBuffer, responseState := ResponseState.GENERATING_VIDEO,
    responseCounter := 1, responseAudioBuffer := [] }

/-- Source resolver that configures a text-to-video source for every persona. -/
def srcResolver : String → Option String := fun _ => some "https://example.test/src.png"

/-- Concrete successful D-ID result with a non-"done" success status. -/
def demoResult : DidTalkResult :=
  { talk_id := "tk1", status := "complete", result_url := some "https://example.test/v.mp4" }

/-- Concrete failed D-ID result. -/
def demoFailResult : DidTalkResult :=
  { talk_id := "tk2", status := "error", result_url := none, error := some "boom" }

/-- Concrete pre-existing buffer used for the C5 counterexample. -/
def oldBuffer : ResponseBuffer := { response_id := "sess_response_0", audio_chunks := [[7, 7]] }

/-- Concrete session that already has a response buffer (`oldBuffer`). -/
def stWithBuffer : SessionState :=
  { sessionId := "sess", websocket := true, persona := some "joi",
    responseBuffer := some oldBuffer, responseState := ResponseState.BUFFERING,
    responseCounter := 1, responseAudioBuffer := [] }

/-- Concrete idle session whose stored persona is `officer_k`. -/
def stOfficerK : SessionState :=
  { sessionId := "s2", websocket := true, persona := some "officer_k",
    responseBuffer := none, responseState := ResponseState.IDLE,
    responseCounter := 0, responseAudioBuffer := [] }

/-- A session whose current buffer, if any, has already started video
generation (or that has no buffer): no further generation task can be spawned
by `_handle_buffered_text`. -/
def quiet (st : SessionState) : Prop :=
  ∀ b, st.responseBuffer = some b → b.video_generation_started = true

/-! ### Helper lemmas -/

theorem drop_len_append {α : Type} (A B : List α) {n : Nat} (h : A.length = n) :
    (A ++ B).drop n = B := by
  subst h; simp

theorem take_len_append {α : Type} (A B : List α) {n : Nat} (h : A.length = n) :
    (A ++ B).take n = A := by
  subst h; simp

theorem wavPre_length (d sr ch : Nat) : (wavPre d sr ch).length = 40 := by
  simp [wavPre, riffTag, waveTag, fmtTag, dataTag, pack_u16le, pack_u32le]

theorem decode_pack_u32le (n : Nat) : decode_u32le (pack_u32le n) = n % 4294967296 := by
  simp only [decode_u32le, pack_u32le]
  omega

theorem countP_isTalkVideo_audioMap (l : List (List Nat)) :
    ((l.map fun c => Msg.audio (b64encode c)).countP Msg.isTalkVideo) = 0 := by
  induction l with
  | nil => rfl
  | cons c rest ih => simp [List.countP_cons, Msg.isTalkVideo, ih]

theorem countP_isTalkError_audioMap (l : List (List Nat)) :
    ((l.map fun c => Msg.audio (b64encode c)).countP Msg.isTalkError) = 0 := by
  induction l with
  | nil => rfl
  | cons c rest ih => simp [List.countP_cons, Msg.isTalkError, ih]

theorem filterMap_status_audioMap (l : List (List Nat)) :
    ((l.map fun c => Msg.audio (b64encode c)).filterMap Msg.talkVideoStatus) = [] := by
  induction l with
  | nil => rfl
  | cons c rest ih => simp [List.filterMap_cons, Msg.talkVideoStatus, ih]

theorem add_text_part_flag (b : ResponseBuffer) (t r : String) :
    (b.add_text_part t r).video_generation_started = b.video_generation_started := by
  unfold ResponseBuffer.add_text_part
  by_cases h : pyStrip t = "" <;> simp [h]

theorem add_text_part_parts (b : ResponseBuffer) (t r : String) :
    (b.add_text_part t r).text_parts = b.text_parts ++ (mkFragment (t, r)).toList := by
  unfold ResponseBuffer.add_text_part mkFragment
  by_cases h : pyStrip t = "" <;> simp [h]

theorem applyAdds_parts (l : List (String × String)) :
    ∀ b : ResponseBuffer, (applyAdds b l).text_parts = b.text_parts ++ l.filterMap mkFragment := by
  induction l with
  | nil => intro b; simp [applyAdds]
  | cons p rest ih =>
      intro b
      rw [applyAdds, ih, add_text_part_parts]
      cases h : mkFragment p <;> simp [List.filterMap_cons, h]

theorem fragments_select (l : List (String × String)) :
    ((l.filterMap mkFragment).filter (fun f => f.role == "assistant")).map (fun f => f.text)
      = l.filterMap selectFragment := by
  induction l with
  | nil => rfl
  | cons p rest ih =>
      by_cases h1 : pyStrip p.1 = ""
      · simp [mkFragment, selectFragment, h1, ih]
      · by_cases h2 : normalize_role p.2 = "assistant"
        · simp [mkFragment, selectFragment, h1, h2, ih]
        · simp [mkFragment, selectFragment, h1, h2, ih]

theorem handle_buffered_text_none (st : SessionState) (t r : String)
    (hb : st.responseBuffer = none) : handle_buffered_text st t r = (st, false) := by
  unfold handle_buffered_text
  rw [hb]

theorem handle_buffered_text_nonassistant (st : SessionState) (t r : String)
    (hr : normalize_role r ≠ "assistant") : handle_buffered_text st t r = (st, false) := by
  unfold handle_buffered_text
  cases hb : st.responseBuffer <;> simp [hr]

theorem handle_buffered_text_eq (st : SessionState) (t r : String) (buffer : ResponseBuffer)
    (hb : st.responseBuffer = some buffer) (hr : normalize_role r = "assistant") :
    handle_buffered_text st t r =
      (let b1 := buffer.add_text_part t (normalize_role r)
       let b2 := { b1 with complete_text := some b1.get_full_text }
       if buffer.video_generation_started then
         ({ st with responseBuffer := some b2 }, false)
       else
         ({ st with responseBuffer := some { b2 with video_generation_started := true },
                    responseState := ResponseState.GENERATING_VIDEO }, true)) := by
  unfold handle_buffered_text
  rw [hb]
  simp [hr, add_text_part_flag]

theorem handle_buffered_text_quiet (st : SessionState) (t r : String) (h : quiet st) :
    (handle_buffered_text st t r).2 = false ∧ quiet (handle_buffered_text st t r).1 := by
  cases hb : st.responseBuffer with
  | none => rw [handle_buffered_text_none st t r hb]; exact ⟨rfl, h⟩
  | some buffer =>
    by_cases hr : normalize_role r = "assistant"
    · have hflag : buffer.video_generation_started = true := h buffer hb
      rw [handle_buffered_text_eq st t r buffer hb hr]
      simp only [hflag, if_true]
      refine ⟨by trivial, ?_⟩
      intro b hbeq
      simp only [Option.some.injEq] at hbeq
      rw [← hbeq]
      simpa [add_text_part_flag] using hflag
    · rw [handle_buffered_text_nonassistant st t r hr]; exact ⟨rfl, h⟩

theorem handle_buffered_text_spawn_quiet (st : SessionState) (t r : String) :
    (handle_buffered_text st t r).2 = true → quiet (handle_buffered_text st t r).1 := by
  cases hb : st.responseBuffer with
  | none => rw [handle_buffered_text_none st t r hb]; intro hcontra; exact absurd hcontra (by simp)
  | some buffer =>
    by_cases hr : normalize_role r = "assistant"
    · rw [handle_buffered_text_eq st t r buffer hb hr]
      by_cases hf : buffer.video_generation_started = true
      · simp [hf]
      · simp only [Bool.not_eq_true] at hf
        simp only [hf, Bool.false_eq_true, if_false]
        intro _ b hbeq
        simp only [Option.some.injEq] at hbeq
        rw [← hbeq]
    · rw [handle_buffered_text_nonassistant st t r hr]
      intro hcontra; exact absurd hcontra (by simp)

theorem runTexts_quiet (l : List (String × String)) :
    ∀ st : SessionState, quiet st → (runTexts st l).2 = 0 := by
  induction l with
  | nil => intro st _; rfl
  | cons p rest ih =>
      intro st h
      have hq := handle_buffered_text_quiet st p.1 p.2 h
      simp [runTexts, hq.1, ih _ hq.2]

theorem runTexts_le_one (l : List (String × String)) :
    ∀ st : SessionState, (runTexts st l).2 ≤ 1 := by
  induction l with
  | nil => intro st; simp [runTexts]
  | cons p rest ih =>
      intro st
      cases hs : (handle_buffered_text st p.1 p.2).2
      · simpa [runTexts, hs] using ih (handle_buffered_text st p.1 p.2).1
      · have hq := handle_buffered_text_spawn_quiet st p.1 p.2 hs
        simp [runTexts, hs, runTexts_quiet rest _ hq]

/-! ### Claim theorems -/

/-- Claim C4, counterexample: the claim as stated is false on the code.  For
the single appended fragment `("hi", "ASSISTANT")` the claim says the
fragment's role differs from `"assistant"` so it contributes nothing, yet
`get_full_text` returns `"hi"` because `add_text_part` lowercases the role
before storing it. -/
theorem C4_claim_counterexample :
    (applyAdds emptyBuffer [("hi", "ASSISTANT")]).get_full_text = "hi"
    ∧ claimedFullText [("hi", "ASSISTANT")] = ""
    ∧ (applyAdds emptyBuffer [("hi", "ASSISTANT")]).get_full_text
        ≠ claimedFullText [("hi", "ASSISTANT")] := by
  decide

/-- Claim C4, amended: for every sequence of `(text, role)` fragments appended
via `add_text_part`, `get_full_text` returns the stripped texts of exactly the
non-whitespace fragments whose normalized role (stripped, lowercased, empty
defaulting to `"assistant"`) is `"assistant"`, in the order appended, joined
by a single space and with surrounding whitespace trimmed. -/
theorem C4_get_full_text_amended (l : List (String × String)) :
    (applyAdds emptyBuffer l).get_full_text
      = pyStrip (String.intercalate " " (l.filterMap selectFragment)) := by
  unfold ResponseBuffer.get_full_text
  rw [applyAdds_parts]
  have hnil : emptyBuffer.text_parts = [] := rfl
  rw [hnil]
  simp only [List.nil_append]
  rw [fragments_select]

/-- Claim C5, counterexample: `_start_response_buffer` on a session that
already has a response buffer is not a no-op: the old buffer is replaced by a
fresh empty buffer carrying the next response id, and the counter advances. -/
theorem C5_start_buffer_counterexample :
    (start_response_buffer stWithBuffer).1.responseBuffer ≠ some oldBuffer
    ∧ (start_response_buffer stWithBuffer).1.responseCounter = 2
    ∧ (start_response_buffer stWithBuffer).2.response_id = "sess_response_1" := by
  decide

/-- Claim C5, amended: for every session that already has a response buffer,
`_start_response_buffer` unconditionally replaces it: a fresh empty buffer
with the next response id `{session_id}_response_{counter}` is installed, the
counter is incremented, and the state is set to `RESPONSE_STARTED` (no
warning-and-no-op guard exists; the buffered-audio caller avoids this case by
only starting a buffer when none exists or the state is idle). -/
theorem C5_start_buffer_replaces (st : SessionState) (b : ResponseBuffer)
    (_h : st.responseBuffer = some b) :
    (start_response_buffer st).1.responseBuffer = some (start_response_buffer st).2
    ∧ (start_response_buffer st).2
        = { response_id := st.sessionId ++ "_response_" ++ toString st.responseCounter }
    ∧ (start_response_buffer st).1.responseCounter = st.responseCounter + 1
    ∧ (start_response_buffer st).1.responseState = ResponseState.RESPONSE_STARTED :=
  ⟨rfl, rfl, rfl, rfl⟩

/-- Witness for C5_start_buffer_replaces at the concrete session
`stWithBuffer`, which holds `oldBuffer`. -/
theorem C5_start_buffer_replaces_witness :
    (start_response_buffer stWithBuffer).1.responseBuffer
        = some (start_response_buffer stWithBuffer).2
    ∧ (start_response_buffer stWithBuffer).2
        = { response_id := stWithBuffer.sessionId ++ "_response_"
              ++ toString stWithBuffer.responseCounter }
    ∧ (start_response_buffer stWithBuffer).1.responseCounter
        = stWithBuffer.responseCounter + 1
    ∧ (start_response_buffer stWithBuffer).1.responseState
        = ResponseState.RESPONSE_STARTED :=
  C5_start_buffer_replaces stWithBuffer oldBuffer rfl

/-- Claim C6: an empty turn never schedules video generation.  On `audio_end`,
when the accumulated PCM buffer is empty, the audio-driven path creates no
task; and `_trigger_video_from_text` creates no task when the text strips to
empty. -/
theorem C6_empty_turn_no_task :
    (∀ (resolveSrc : String → Option String) (st : SessionState),
       st.responseAudioBuffer = [] → (process_audio_end resolveSrc st).2 = false)
    ∧ (∀ (resolveSrc : String → Option String) (st : SessionState) (text : String),
       pyStrip text = "" → trigger_video_from_text resolveSrc st text = false) := by
  constructor
  · intro resolveSrc st h
    unfold process_audio_end
    cases htr : truthyOpt (resolveSrc (currentPersona st)) <;> simp [htr, h]
  · intro resolveSrc st text h
    unfold trigger_video_from_text
    simp [h]

/-- Witness for C6_empty_turn_no_task: a session with an empty PCM accumulator
and a whitespace-only text. -/
theorem C6_empty_turn_no_task_witness :
    (process_audio_end (fun _ => none) stOfficerK).2 = false
    ∧ trigger_video_from_text srcResolver stOfficerK "   " = false :=
  ⟨C6_empty_turn_no_task.1 (fun _ => none) stOfficerK rfl,
   C6_empty_turn_no_task.2 srcResolver stOfficerK "   " (by decide)⟩

/-- Claim C7: `wait_for_result` returns the first polled result whose status
is case-insensitively terminal (success set `{done, complete, succeeded}` or
failure set `{error, failed}`); any other status causes another poll; and when
the polls allowed by the deadline are exhausted it returns a result with
status `"timeout"` and an error message instead of polling forever. -/
theorem C7_wait_for_result_spec :
    (∀ (tid : String) (polls : List DidTalkResult),
       wait_for_result tid polls = waitPoll tid none polls)
    ∧ (∀ (tid : String) (acc : Option DidTalkResult) (r : DidTalkResult)
         (rest : List DidTalkResult),
       (isSuccessStatus r.status || isFailureStatus r.status) = true →
       waitPoll tid acc (r :: rest) = r)
    ∧ (∀ (tid : String) (acc : Option DidTalkResult) (r : DidTalkResult)
         (rest : List DidTalkResult),
       (isSuccessStatus r.status || isFailureStatus r.status) = false →
       waitPoll tid acc (r :: rest) = waitPoll tid (some r) rest)
    ∧ (∀ (tid : String) (acc : Option DidTalkResult),
       (waitPoll tid acc []).status = "timeout"
       ∧ (waitPoll tid acc []).error.isSome = true) := by
  refine ⟨fun tid polls => rfl, ?_, ?_, ?_⟩
  · intro tid acc r rest h
    cases hs : isSuccessStatus r.status with
    | true => cases acc <;> simp [waitPoll, hs]
    | false =>
        have hf : isFailureStatus r.status = true := by simpa [hs] using h
        cases acc <;> simp [waitPoll, hs, hf]
  · intro tid acc r rest h
    simp only [Bool.or_eq_false_iff] at h
    cases acc <;> simp [waitPoll, h.1, h.2]
  · intro tid acc
    cases acc <;> simp [waitPoll]

/-- Witness for C7_wait_for_result_spec: a terminal first poll is returned
as-is, a non-terminal first poll recurses, and the exhausted-polls case
reports a timeout with an error. -/
theorem C7_wait_for_result_spec_witness :
    waitPoll "t" none [demoResult] = demoResult
    ∧ waitPoll "t" none [{ talk_id := "t", status := "created", result_url := none }]
        = waitPoll "t" (some { talk_id := "t", status := "created", result_url := none }) []
    ∧ (waitPoll "t" none []).status = "timeout"
    ∧ (waitPoll "t" none []).error.isSome = true :=
  ⟨C7_wait_for_result_spec.2.1 "t" none demoResult [] (by decide),
   C7_wait_for_result_spec.2.2.1 "t" none
     { talk_id := "t", status := "created", result_url := none } [] (by decide),
   (C7_wait_for_result_spec.2.2.2 "t" none).1,
   (C7_wait_for_result_spec.2.2.2 "t" none).2⟩

/-- Claim C8, counterexample: a `set_persona` message whose persona value is
the empty string has a lowercased value outside the closed persona set, yet
the handler neither errors nor leaves the persona unchanged: Python's
`message.get("persona") or "joi"` replaces the falsy empty string by
`"joi"`, the persona is updated, and a confirmation is sent. -/
theorem C8_set_persona_counterexample :
    personaChoices.contains (pyLower "") = false
    ∧ (handle_set_persona stOfficerK (some "")).1.persona = some "joi"
    ∧ (handle_set_persona stOfficerK (some "")).1.persona ≠ stOfficerK.persona
    ∧ (handle_set_persona stOfficerK (some "")).2
        = [Msg.client_info "persona_set" (some "joi")] := by
  decide

/-- Claim C8, amended: for every `set_persona` message with a non-empty
persona value whose lowercase is outside `{joi, officer_k, officer_j}`, the
client receives an `error` message and the stored persona is unchanged; a
value whose lowercase is in the set updates the persona to that lowercase
value with a `client_info` confirmation; a missing or empty value is treated
as `"joi"` (update plus confirmation). -/
theorem C8_set_persona_validated (st : SessionState) (s : String) :
    (s ≠ "" → personaChoices.contains (pyLower s) = false →
      handle_set_persona st (some s)
        = (st, [Msg.error ("Unknown persona: " ++ pyLower s)]))
    ∧ (personaChoices.contains (pyLower s) = true →
      handle_set_persona st (some s)
        = ({ st with persona := some (pyLower s) },
           [Msg.client_info "persona_set" (some (pyLower s))]))
    ∧ handle_set_persona st none
        = ({ st with persona := some "joi" },
           [Msg.client_info "persona_set" (some "joi")])
    ∧ handle_set_persona st (some "")
        = ({ st with persona := some "joi" },
           [Msg.client_info "persona_set" (some "joi")]) := by
  have hjoiLower : pyLower "joi" = "joi" := by decide
  have hjoiIn : personaChoices.contains "joi" = true := by decide
  refine ⟨?_, ?_, ?_, ?_⟩
  · intro hne hout
    unfold handle_set_persona
    simp [hne]
    simpa using hout
  · intro hin
    by_cases hs : s = ""
    · rw [hs] at hin
      exact absurd hin (by decide)
    · unfold handle_set_persona
      simp [hs]
      simpa using hin
  · unfold handle_set_persona
    simp [hjoiLower, hjoiIn]
    simpa using hjoiIn
  · unfold handle_set_persona
    simp [hjoiLower, hjoiIn]
    simpa using hjoiIn

/-- Witness for C8_set_persona_validated: an unknown persona is rejected with
the stored persona untouched, and an uppercase known persona is accepted
lowercased. -/
theorem C8_set_persona_validated_witness :
    handle_set_persona stOfficerK (some "replicant")
      = (stOfficerK, [Msg.error ("Unknown persona: " ++ pyLower "replicant")])
    ∧ handle_set_persona stOfficerK (some "JOI")
      = ({ stOfficerK with persona := some (pyLower "JOI") },
         [Msg.client_info "persona_set" (some (pyLower "JOI"))]) :=
  ⟨(C8_set_persona_validated stOfficerK "replicant").1 (by decide) (by decide),
   (C8_set_persona_validated stOfficerK "JOI").2.1 (by decide)⟩

/-- Claim C9: the WAV container written by `_pcm16le_to_wav` carries a
data-chunk length field equal to the byte length of the input PCM (as a
little-endian 32-bit field, exact whenever the length fits in 32 bits), the
bytes after the 44-byte header are exactly the input PCM, and the data-length
field does not depend on the sample rate or channel count arguments. -/
theorem C9_wav_data_length (pcm : List Nat) (sample_rate channels : Nat) :
    (pcm16le_to_wav pcm sample_rate channels).drop 44 = pcm
    ∧ dataSizeField (pcm16le_to_wav pcm sample_rate channels) = pack_u32le pcm.length
    ∧ (∀ sr2 ch2 : Nat,
        dataSizeField (pcm16le_to_wav pcm sample_rate channels)
          = dataSizeField (pcm16le_to_wav pcm sr2 ch2))
    ∧ (pcm.length < 4294967296 →
        decode_u32le (dataSizeField (pcm16le_to_wav pcm sample_rate channels))
          = pcm.length) := by
  have hfield : ∀ sr ch : Nat,
      dataSizeField (pcm16le_to_wav pcm sr ch) = pack_u32le pcm.length := by
    intro sr ch
    have e : pcm16le_to_wav pcm sr ch
        = wavPre pcm.length sr ch ++ (pack_u32le pcm.length ++ pcm) := by
      simp [pcm16le_to_wav, List.append_assoc]
    unfold dataSizeField
    rw [e, drop_len_append _ _ (wavPre_length pcm.length sr ch)]
    exact take_len_append _ _ rfl
  refine ⟨?_, hfield _ _, fun sr2 ch2 => (hfield _ _).trans (hfield _ _).symm, ?_⟩
  · have e : pcm16le_to_wav pcm sample_rate channels
        = (wavPre pcm.length sample_rate channels ++ pack_u32le pcm.length) ++ pcm := by
      simp [pcm16le_to_wav, List.append_assoc]
    rw [e]
    exact drop_len_append _ _ (by simp [wavPre_length, pack_u32le])
  · intro h
    rw [hfield _ _, decode_pack_u32le]
    exact Nat.mod_eq_of_lt h

/-- Witness for C9_wav_data_length: a 3-byte PCM input at a sample rate and
channel count different from the defaults still reports data length 3. -/
theorem C9_wav_data_length_witness :
    decode_u32le (dataSizeField (pcm16le_to_wav [1, 2, 3] 8000 2)) = 3 :=
  (C9_wav_data_length [1, 2, 3] 8000 2).2.2.2 (by decide)

/-- Claim C1: for a buffered turn whose video-generation result has a
case-insensitive success status (`done`/`complete`/`succeeded`) and a
non-empty result URL, with the session websocket alive, the client receives
exactly the ordered payload of each buffered audio chunk base64-encoded as an
individual `audio` message (in append order), then one coordinated
`talk_video` message carrying persona, talk id, status, url and
`coordinated = true`, then one `audio_end`; when the status is not a success
or the URL is absent this coordinated payload (in particular any `talk_video`)
is not sent. -/
theorem C1_coordinated_success_payload (resolveSrc : String → Option String)
    (st : SessionState) (buffer : ResponseBuffer) (result : DidTalkResult)
    (hws : st.websocket = true)
    (hsrc : truthyOpt (resolveSrc (currentPersona st)) = true) :
    ((isSuccessStatus result.status && truthyOpt result.result_url) = true →
      (generate_buffered_video resolveSrc st buffer (DidOutcome.ok result)).2
        = buffer.audio_chunks.map (fun chunk => Msg.audio (b64encode chunk))
          ++ [Msg.talk_video (currentPersona st) (some result.talk_id) "done"
                result.result_url (some true),
              Msg.audio_end])
    ∧ ((isSuccessStatus result.status && truthyOpt result.result_url) = false →
      ((generate_buffered_video resolveSrc st buffer (DidOutcome.ok result)).2.countP
          Msg.isTalkVideo) = 0) := by
  constructor
  · intro hcond
    simp [generate_buffered_video, hsrc, hcond, send_coordinated_response, hws]
  · intro hcond
    cases hrb : st.responseBuffer <;>
      simp [generate_buffered_video, hsrc, hcond, send_buffered_response_error, hws, hrb,
            List.countP_append, List.countP_cons, countP_isTalkVideo_audioMap,
            Msg.isTalkVideo]

/-- Witness for C1_coordinated_success_payload: a concrete turn with two
buffered chunks and a `"complete"` status with a URL yields exactly the
coordinated payload. -/
theorem C1_coordinated_success_payload_witness :
    (generate_buffered_video srcResolver stReady demoBuffer (DidOutcome.ok demoResult)).2
      = demoBuffer.audio_chunks.map (fun chunk => Msg.audio (b64encode chunk))
        ++ [Msg.talk_video (currentPersona stReady) (some demoResult.talk_id) "done"
              demoResult.result_url (some true),
            Msg.audio_end] :=
  (C1_coordinated_success_payload srcResolver stReady demoBuffer demoResult rfl
    (by decide)).1 (by decide)

/-- Claim C2: for a buffered turn whose video generation fails (an exception,
or a returned result with non-success status or missing URL, which includes
the timeout status), with the websocket alive and the session's buffer being
the turn's buffer, the client receives all buffered audio chunks in order,
one `audio_end`, exactly one `talk_error` and no `talk_video`; afterwards the
response buffer is cleared and the response state is `IDLE`. -/
theorem C2_failure_fallback (resolveSrc : String → Option String) (st : SessionState)
    (buffer : ResponseBuffer) (outcome : DidOutcome)
    (hws : st.websocket = true)
    (hbuf : st.responseBuffer = some buffer)
    (hsrc : truthyOpt (resolveSrc (currentPersona st)) = true)
    (hfail : videoFailureOutcome outcome = true) :
    ∃ err : String,
      (generate_buffered_video resolveSrc st buffer outcome).2
        = buffer.audio_chunks.map (fun chunk => Msg.audio (b64encode chunk))
          ++ [Msg.audio_end, Msg.talk_error (currentPersona st) err]
      ∧ ((generate_buffered_video resolveSrc st buffer outcome).2.countP Msg.isTalkError) = 1
      ∧ ((generate_buffered_video resolveSrc st buffer outcome).2.countP Msg.isTalkVideo) = 0
      ∧ (generate_buffered_video resolveSrc st buffer outcome).1.responseBuffer = none
      ∧ (generate_buffered_video resolveSrc st buffer outcome).1.responseState
          = ResponseState.IDLE := by
  cases outcome with
  | exn e =>
      refine ⟨e, ?_, ?_, ?_, ?_, ?_⟩ <;>
        simp [generate_buffered_video, hsrc, send_buffered_response_error, hws, hbuf,
              clear_response_buffer, List.countP_append, List.countP_cons,
              countP_isTalkVideo_audioMap, countP_isTalkError_audioMap,
              Msg.isTalkVideo, Msg.isTalkError, List.append_assoc]
  | ok r =>
      have hcond : (isSuccessStatus r.status && truthyOpt r.result_url) = false := by
        have h2 := hfail
        unfold videoFailureOutcome at h2
        simpa only [Bool.not_eq_true'] using h2
      refine ⟨"Video generation failed: " ++ r.status, ?_, ?_, ?_, ?_, ?_⟩ <;>
        simp [generate_buffered_video, hsrc, hcond, send_buffered_response_error, hws, hbuf,
              clear_response_buffer, List.countP_append, List.countP_cons,
              countP_isTalkVideo_audioMap, countP_isTalkError_audioMap,
              Msg.isTalkVideo, Msg.isTalkError, List.append_assoc]

/-- Witness for C2_failure_fallback: a concrete failed result (`"error"`
status) on a live session with two buffered chunks. -/
theorem C2_failure_fallback_witness :
    ∃ err : String,
      (generate_buffered_video srcResolver stReady demoBuffer
          (DidOutcome.ok demoFailResult)).2
        = demoBuffer.audio_chunks.map (fun chunk => Msg.audio (b64encode chunk))
          ++ [Msg.audio_end, Msg.talk_error (currentPersona stReady) err]
      ∧ ((generate_buffered_video srcResolver stReady demoBuffer
            (DidOutcome.ok demoFailResult)).2.countP Msg.isTalkError) = 1
      ∧ ((generate_buffered_video srcResolver stReady demoBuffer
            (DidOutcome.ok demoFailResult)).2.countP Msg.isTalkVideo) = 0
      ∧ (generate_buffered_video srcResolver stReady demoBuffer
            (DidOutcome.ok demoFailResult)).1.responseBuffer = none
      ∧ (generate_buffered_video srcResolver stReady demoBuffer
            (DidOutcome.ok demoFailResult)).1.responseState = ResponseState.IDLE :=
  C2_failure_fallback srcResolver stReady demoBuffer (DidOutcome.ok demoFailResult)
    rfl rfl (by decide) (by decide)

/-- Claim C3: per turn (one `ResponseBuffer`), any sequence of buffered-text
additions creates at most one video-generation task; once the buffer's
`video_generation_started` flag is set, later additions create none; an
assistant-role addition still appends its stripped text to the buffer; and
the first assistant-role addition on an unstarted buffer does create the
task. -/
theorem C3_single_generation_task :
    (∀ (st : SessionState) (l : List (String × String)), (runTexts st l).2 ≤ 1)
    ∧ (∀ (st : SessionState) (l : List (String × String)) (b : ResponseBuffer),
        st.responseBuffer = some b → b.video_generation_started = true →
        (runTexts st l).2 = 0)
    ∧ (∀ (st : SessionState) (b : ResponseBuffer) (text role : String),
        st.responseBuffer = some b → normalize_role role = "assistant" →
        pyStrip text ≠ "" →
        ∃ b', (handle_buffered_text st text role).1.responseBuffer = some b'
          ∧ b'.text_parts = b.text_parts ++ [{ role := "assistant", text := pyStrip text }]
          ∧ (b.video_generation_started = true → (handle_buffered_text st text role).2 = false))
    ∧ (∀ (st : SessionState) (b : ResponseBuffer) (text role : String),
        st.responseBuffer = some b → normalize_role role = "assistant" →
        b.video_generation_started = false →
        (handle_buffered_text st text role).2 = true) := by
  refine ⟨fun st l => runTexts_le_one l st, ?_, ?_, ?_⟩
  · intro st l b hb hflag
    exact runTexts_quiet l st (fun b2 hb2 => by rw [hb] at hb2; cases hb2; exact hflag)
  · intro st b text role hb hr htext
    have hparts : (b.add_text_part text (normalize_role role)).text_parts
        = b.text_parts ++ [{ role := "assistant", text := pyStrip text }] := by
      rw [add_text_part_parts]
      have hfrag : mkFragment (text, normalize_role role)
          = some { role := "assistant", text := pyStrip text } := by
        unfold mkFragment
        rw [hr]
        have hnr : normalize_role "assistant" = "assistant" := by decide
        simp [htext, hnr]
      rw [hfrag]
      rfl
    rw [handle_buffered_text_eq st text role b hb hr]
    by_cases hf : b.video_generation_started = true
    · simp only [hf, if_true]
      exact ⟨_, rfl, by simpa using hparts, fun _ => trivial⟩
    · simp only [Bool.not_eq_true] at hf
      simp only [hf, Bool.false_eq_true, if_false]
      refine ⟨_, rfl, by simpa using hparts, ?_⟩
      intro hcontra
      exact hcontra.elim
  · intro st b text role hb hr hflag
    rw [handle_buffered_text_eq st text role b hb hr]
    simp [hflag]

/-- Witness for C3_single_generation_task: on a buffer whose flag is already
set, two further additions create zero tasks; an assistant addition still
appends its text; and on a fresh buffer the first assistant addition creates
the task. -/
theorem C3_single_generation_task_witness :
    (runTexts stReady [("more", "assistant"), ("again", "assistant")]).2 = 0
    ∧ (∃ b', (handle_buffered_text stReady "hello" "assistant").1.responseBuffer = some b'
        ∧ b'.text_parts
            = demoBuffer.text_parts ++ [{ role := "assistant", text := pyStrip "hello" }]
        ∧ (demoBuffer.video_generation_started = true →
            (handle_buffered_text stReady "hello" "assistant").2 = false))
    ∧ (runTexts stWithBuffer [("first", "assistant")]).2 ≤ 1
    ∧ (handle_buffered_text stWithBuffer "first words" "assistant").2 = true :=
  ⟨C3_single_generation_task.2.1 stReady [("more", "assistant"), ("again", "assistant")]
     demoBuffer rfl rfl,
   C3_single_generation_task.2.2.1 stReady demoBuffer "hello" "assistant" rfl
     (by decide) (by decide),
   C3_single_generation_task.1 stWithBuffer [("first", "assistant")],
   C3_single_generation_task.2.2.2 stWithBuffer oldBuffer "first words" "assistant" rfl
     (by decide) rfl⟩

/-- Claim C10: on the buffered success path the `talk_video` message always
carries the literal status string `"done"` whatever status the collaborator
returned, while the legacy text path forwards the collaborator's status
verbatim in its `talk_video` message. -/
theorem C10_status_rewrite_vs_legacy (resolveSrc : String → Option String)
    (st : SessionState) (buffer : ResponseBuffer) (result : DidTalkResult) (text : String)
    (hws : st.websocket = true)
    (hsrc : truthyOpt (resolveSrc (currentPersona st)) = true)
    (hok : (isSuccessStatus result.status && truthyOpt result.result_url) = true) :
    ((generate_buffered_video resolveSrc st buffer (DidOutcome.ok result)).2.filterMap
        Msg.talkVideoStatus) = ["done"]
    ∧ ((create_talk_from_text_and_notify resolveSrc st text (DidOutcome.ok result)).filterMap
        Msg.talkVideoStatus) = [result.status] := by
  constructor
  · simp [generate_buffered_video, hsrc, hok, send_coordinated_response, hws,
          List.filterMap_append, filterMap_status_audioMap, List.filterMap_cons,
          Msg.talkVideoStatus]
  · simp [create_talk_from_text_and_notify, hws, hsrc, List.filterMap_cons,
          Msg.talkVideoStatus]

/-- Witness for C10_status_rewrite_vs_legacy: with the collaborator returning
status `"complete"`, the buffered path reports `"done"` while the legacy path
reports `"complete"`. -/
theorem C10_status_rewrite_vs_legacy_witness :
    ((generate_buffered_video srcResolver stReady demoBuffer
        (DidOutcome.ok demoResult)).2.filterMap Msg.talkVideoStatus) = ["done"]
    ∧ ((create_talk_from_text_and_notify srcResolver stReady "hi"
        (DidOutcome.ok demoResult)).filterMap Msg.talkVideoStatus) = [demoResult.status] :=
  C10_status_rewrite_vs_legacy srcResolver stReady demoBuffer demoResult "hi" rfl
    (by decide) (by decide)

end Deckard
